import Mathlib

/-!
Shallow embedding of the task-tracking client in `src/src/pages/Home.tsx`:
the task store, the view-derivation engine (Today / Upcoming / Lists /
Statistics) and the assistant chat session, together with theorems settling
the specification claims about them.

Dates are modelled as natural-number timestamps (milliseconds since the
epoch, UTC): `Date.setHours(0,0,0,0)` becomes truncation to a multiple of
`msPerDay`, `Date.getDay()` becomes the weekday index of the epoch day
(day 0, 1970-01-01, was a Thursday, weekday 4), and `Date` comparison is
numeric comparison of the timestamps, exactly as `getTime` comparison.
-/

namespace TaskFlow

/-- Milliseconds per calendar day. -/
def msPerDay : Nat := 86400000

/-- A point in time, as in the JS `Date`: milliseconds since the epoch. -/
abbrev Timestamp := Nat

/-- `d.setHours(0,0,0,0)`: truncate a timestamp to the start of its day. -/
def startOfDay (t : Timestamp) : Timestamp := t / msPerDay * msPerDay

/-- `d.getDay()`: weekday index with Sunday = 0.  Day 0 of the epoch was a
Thursday, hence the offset 4. -/
def getDay (t : Timestamp) : Nat := (t / msPerDay + 4) % 7

/-- Task priority, from the low / medium / high union type. -/
inductive Priority
  | low
  | medium
  | high
deriving DecidableEq, Repr

/-- The `Task` interface (Home.tsx lines 42-50). -/
structure Task where
  id : String
  title : String
  completed : Bool
  priority : Priority
  category : String
  dueDate : Timestamp
  createdAt : Timestamp
deriving DecidableEq, Repr

/-- The four values of `activeView`. -/
inductive View
  | today
  | upcoming
  | lists
  | stats
deriving DecidableEq, Repr

/-- `getFilteredTasks` (Home.tsx lines 717-745): date-filter the collection
according to the active view, then intersect with the active category
filter when one is set. -/
def getFilteredTasks (tasks : List Task) (activeView : View)
    (categoryFilter : Option String) (now : Timestamp) : List Task :=
  let today := startOfDay now
  let filtered :=
    match activeView with
    | .today => tasks.filter (fun t => startOfDay t.dueDate == today)
    | .upcoming => tasks.filter (fun t => decide (today < startOfDay t.dueDate))
    | _ => tasks
  match categoryFilter with
  | some c => filtered.filter (fun t => t.category == c)
  | none => filtered

/-- The render dispatch (Home.tsx lines 785-788): the Lists and Stats views
receive the whole collection `tasks`; the Today and Upcoming views receive
`getFilteredTasks`. -/
def displayedTasks (tasks : List Task) (activeView : View)
    (categoryFilter : Option String) (now : Timestamp) : List Task :=
  match activeView with
  | .lists => tasks
  | .stats => tasks
  | _ => getFilteredTasks tasks activeView categoryFilter now

/-- `ListsView.handleCategoryClick` (Home.tsx lines 510-514): clicking the
active category clears the filter, clicking another selects it. -/
def handleCategoryClick (activeCategory : Option String) (category : String) :
    Option String :=
  if activeCategory = some category then none else some category

section DayLemmas

lemma msPerDay_pos : 0 < msPerDay := by decide

lemma startOfDay_eq_iff (a b : Timestamp) :
    startOfDay a = startOfDay b ↔ a / msPerDay = b / msPerDay := by
  unfold startOfDay
  exact ⟨fun h => Nat.eq_of_mul_eq_mul_right msPerDay_pos h, fun h => by rw [h]⟩

lemma startOfDay_lt_iff (a b : Timestamp) :
    startOfDay a < startOfDay b ↔ a / msPerDay < b / msPerDay := by
  unfold startOfDay
  exact Nat.mul_lt_mul_right msPerDay_pos

end DayLemmas

/-- C1: membership in the Today view is exactly calendar-day equality of the
truncated due date with the truncated current date, membership in the
Upcoming view is exactly strict day-order above today; consequently a task
due today (any time-of-day) is in Today and not Upcoming, a task due
tomorrow is in Upcoming and not Today, and a task due yesterday is in
neither view. -/
theorem today_upcoming_membership (tasks : List Task) (t : Task) (now : Timestamp) :
    (t ∈ getFilteredTasks tasks .today none now ↔
      t ∈ tasks ∧ startOfDay t.dueDate = startOfDay now) ∧
    (t ∈ getFilteredTasks tasks .upcoming none now ↔
      t ∈ tasks ∧ startOfDay now < startOfDay t.dueDate) ∧
    (t ∈ tasks → t.dueDate / msPerDay = now / msPerDay →
      t ∈ getFilteredTasks tasks .today none now ∧
      t ∉ getFilteredTasks tasks .upcoming none now) ∧
    (t ∈ tasks → t.dueDate / msPerDay = now / msPerDay + 1 →
      t ∈ getFilteredTasks tasks .upcoming none now ∧
      t ∉ getFilteredTasks tasks .today none now) ∧
    (t ∈ tasks → t.dueDate / msPerDay + 1 = now / msPerDay →
      t ∉ getFilteredTasks tasks .today none now ∧
      t ∉ getFilteredTasks tasks .upcoming none now) := by
  have htoday : t ∈ getFilteredTasks tasks .today none now ↔
      t ∈ tasks ∧ startOfDay t.dueDate = startOfDay now := by
    simp [getFilteredTasks, List.mem_filter]
  have hupc : t ∈ getFilteredTasks tasks .upcoming none now ↔
      t ∈ tasks ∧ startOfDay now < startOfDay t.dueDate := by
    simp [getFilteredTasks, List.mem_filter]
  refine ⟨htoday, hupc, ?_, ?_, ?_⟩
  · intro hmem hday
    constructor
    · exact htoday.mpr ⟨hmem, (startOfDay_eq_iff _ _).mpr hday⟩
    · intro hin
      have h2 := (hupc.mp hin).2
      rw [startOfDay_lt_iff] at h2
      rw [hday] at h2
      exact Nat.lt_irrefl _ h2
  · intro hmem hday
    constructor
    · exact hupc.mpr ⟨hmem, (startOfDay_lt_iff _ _).mpr
        (hday ▸ Nat.lt_succ_self _)⟩
    · intro hin
      have h2 := (htoday.mp hin).2
      rw [startOfDay_eq_iff] at h2
      rw [h2] at hday
      exact Nat.succ_ne_self _ hday.symm
  · intro hmem hday
    constructor
    · intro hin
      have h2 := (htoday.mp hin).2
      rw [startOfDay_eq_iff] at h2
      rw [h2] at hday
      exact Nat.succ_ne_self _ hday
    · intro hin
      have h2 := (hupc.mp hin).2
      rw [startOfDay_lt_iff] at h2
      exact Nat.lt_irrefl _
        (Nat.lt_trans h2 (hday ▸ Nat.lt_succ_self _))

/-- C1 witness: a concrete instantiation, a task due at 6:00 on epoch day 3
with the clock at 14:00 the same day is in the Today view and not in
Upcoming. -/
theorem today_upcoming_membership_witness :
    ({ id := "1", title := "t", completed := false, priority := .low,
       category := "Work", dueDate := 3 * 86400000 + 21600000,
       createdAt := 0 : Task }) ∈
      getFilteredTasks
        [{ id := "1", title := "t", completed := false, priority := .low,
           category := "Work", dueDate := 3 * 86400000 + 21600000,
           createdAt := 0 : Task }] .today none (3 * 86400000 + 50400000) :=
  ((today_upcoming_membership _ _ _).2.2.1 (by simp) (by decide)).1

section DecimalRepr

/-!
Task ids are produced by `Date.now().toString()`.  The following section
proves that the decimal string representation of a natural number is
injective, so ids assigned at distinct clock readings are distinct.
-/

/-- Numeric value of a decimal digit character. -/
def digitVal (c : Char) : Nat := c.toNat - 48

/-- Most-significant-first numeric value of a list of decimal digit
characters. -/
def digitsVal (l : List Char) : Nat :=
  l.foldl (fun acc c => acc * 10 + digitVal c) 0

lemma digitVal_digitChar : ∀ d : Nat, d < 10 →
    digitVal (Nat.digitChar d) = d := by decide

lemma digitsVal_append_singleton (l : List Char) (c : Char) :
    digitsVal (l ++ [c]) = digitsVal l * 10 + digitVal c := by
  simp [digitsVal, List.foldl_append]

lemma toDigitsCore_append (b : Nat) (hb : 2 ≤ b) :
    ∀ (fuel n : Nat) (ds : List Char), n < fuel →
      Nat.toDigitsCore b fuel n ds = Nat.toDigitsCore b fuel n [] ++ ds := by
  intro fuel
  induction fuel with
  | zero => intro n ds h; omega
  | succ f ih =>
    intro n ds h
    simp only [Nat.toDigitsCore]
    by_cases hz : n / b = 0
    · simp [hz]
    · simp only [hz, if_false]
      have hnpos : 0 < n := by
        rcases Nat.eq_zero_or_pos n with h0 | h0
        · exact absurd (by simp [h0]) hz
        · exact h0
      have hlt : n / b < f :=
        Nat.lt_of_lt_of_le (Nat.div_lt_self hnpos (by omega)) (by omega)
      rw [ih (n / b) (Nat.digitChar (n % b) :: ds) hlt,
          ih (n / b) [Nat.digitChar (n % b)] hlt,
          List.append_assoc]
      rfl

lemma digitsVal_toDigitsCore :
    ∀ (fuel n : Nat), n < fuel →
      digitsVal (Nat.toDigitsCore 10 fuel n []) = n := by
  intro fuel
  induction fuel with
  | zero => intro n h; omega
  | succ f ih =>
    intro n h
    simp only [Nat.toDigitsCore]
    by_cases hz : n / 10 = 0
    · have hn10 : n < 10 := by omega
      simp [hz, digitsVal, digitVal_digitChar n hn10, Nat.mod_eq_of_lt hn10]
    · simp only [hz, if_false]
      have hnpos : 0 < n := by
        rcases Nat.eq_zero_or_pos n with h0 | h0
        · exact absurd (by simp [h0]) hz
        · exact h0
      have hlt : n / 10 < f :=
        Nat.lt_of_lt_of_le (Nat.div_lt_self hnpos (by omega)) (by omega)
      rw [toDigitsCore_append 10 (by omega) f (n / 10)
            [Nat.digitChar (n % 10)] hlt,
          digitsVal_append_singleton,
          ih (n / 10) hlt,
          digitVal_digitChar (n % 10) (Nat.mod_lt n (by omega))]
      omega

/-- The decimal string representation of a natural number determines the
number: `Nat.repr` is injective. -/
lemma natRepr_inj {m n : Nat} (h : Nat.repr m = Nat.repr n) : m = n := by
  have hd : Nat.toDigits 10 m = Nat.toDigits 10 n := by
    have := congrArg String.data h
    simpa [Nat.repr, List.asString] using this
  have hm := digitsVal_toDigitsCore (m + 1) m (Nat.lt_succ_self m)
  have hn := digitsVal_toDigitsCore (n + 1) n (Nat.lt_succ_self n)
  rw [← hm, ← hn]
  exact congrArg digitsVal hd

/-- `toString` on naturals is `Nat.repr`, hence injective. -/
lemma natToString_inj {m n : Nat} (h : (toString m : String) = toString n) :
    m = n :=
  natRepr_inj h

end DecimalRepr

/-- `handleAddTask` (Home.tsx lines 696-704): append a fresh task to the
collection; the id is `Date.now().toString()`, `completed` is false and
`createdAt` is the current time. -/
def handleAddTask (tasks : List Task) (title : String) (priority : Priority)
    (category : String) (dueDate : Timestamp) (now : Timestamp) : List Task :=
  tasks ++ [{ id := toString now, title := title, completed := false,
              priority := priority, category := category, dueDate := dueDate,
              createdAt := now }]

/-- JS `String.prototype.trim` on the character data of a string: drop
leading and trailing whitespace.  The guards in the source test
`!text.trim()`, i.e. whether this list is empty. -/
def trimData (s : String) : List Char :=
  ((s.data.dropWhile Char.isWhitespace).reverse.dropWhile
    Char.isWhitespace).reverse

/-- The rejection produced by the blank-title guard of
`QuickAddModal.handleSubmit` (Home.tsx line 163), the ValidationError of
the specification. -/
inductive AddError
  | validationError
deriving DecidableEq, Repr

/-- `QuickAddModal.handleSubmit` (Home.tsx lines 161-177): a title that is
empty after trimming is rejected and nothing is added; otherwise the task
is added via `handleAddTask`. -/
def submitAddTask (tasks : List Task) (title : String) (priority : Priority)
    (category : String) (dueDate : Timestamp) (now : Timestamp) :
    Except AddError (List Task) :=
  if trimData title = [] then .error .validationError
  else .ok (handleAddTask tasks title priority category dueDate now)

/-- `handleToggleTask` (Home.tsx lines 706-710): map over the collection,
flipping `completed` on the task whose id matches. -/
def handleToggleTask (id : String) (tasks : List Task) : List Task :=
  tasks.map fun t =>
    if t.id = id then { t with completed := !t.completed } else t

/-- `handleDeleteTask` (Home.tsx lines 712-714): keep the tasks whose id
differs. -/
def handleDeleteTask (id : String) (tasks : List Task) : List Task :=
  tasks.filter fun t => !(t.id == id)

/-- A concrete task used to instantiate theorems. -/
def demoTask : Task :=
  { id := "1", title := "Review Q1 project proposals", completed := false,
    priority := .high, category := "Work", dueDate := 0, createdAt := 0 }

/-- The task produced by adding title `A` at clock reading 5. -/
def addedTaskA : Task :=
  { id := "5", title := "A", completed := false, priority := .low,
    category := "Work", dueDate := 0, createdAt := 5 }

/-- The task produced by adding title `B` at clock reading 5. -/
def addedTaskB : Task :=
  { id := "5", title := "B", completed := false, priority := .high,
    category := "Personal", dueDate := 0, createdAt := 5 }

/-- C2 counterexample: two sequential adds performed at the same clock
reading (`Date.now()` = 5 for both, i.e. within one millisecond) both
succeed and assign the same id "5" — the assigned ids are not unique, so
the claim that two sequential adds never collide on id is false. -/
theorem add_same_millisecond_id_collision :
    submitAddTask [] "A" .low "Work" 0 5 = .ok [addedTaskA] ∧
    submitAddTask [addedTaskA] "B" .high "Personal" 0 5 =
      .ok [addedTaskA, addedTaskB] ∧
    addedTaskA.id = addedTaskB.id :=
  ⟨rfl, rfl, rfl⟩

/-- C2 amended: add rejects a title that is empty or whitespace-only after
trimming; a successful add appends to the collection a task with
`completed = false` and id equal to the decimal representation of the
current clock reading; two sequential adds receive distinct ids provided
their clock readings differ (ids collide exactly when both adds happen in
the same millisecond). -/
theorem add_validation_and_id_freshness (tasks : List Task) (title : String)
    (priority : Priority) (category : String) (dueDate : Timestamp)
    (now now2 : Timestamp) :
    (trimData title = [] →
      submitAddTask tasks title priority category dueDate now =
        .error .validationError) ∧
    (trimData title ≠ [] →
      submitAddTask tasks title priority category dueDate now =
        .ok (tasks ++ [{ id := toString now, title := title,
                         completed := false, priority := priority,
                         category := category, dueDate := dueDate,
                         createdAt := now }])) ∧
    (now ≠ now2 → (toString now : String) ≠ toString now2) := by
  refine ⟨fun h => ?_, fun h => ?_, fun h hc => h (natToString_inj hc)⟩
  · simp [submitAddTask, h]
  · simp [submitAddTask, h, handleAddTask]

/-- C2 witness: the amended theorem applied at the whitespace-only title
and at the clock readings 7 and 8. -/
theorem add_validation_and_id_freshness_witness :
    submitAddTask [] "  " .low "Work" 0 7 = .error .validationError ∧
    (toString 7 : String) ≠ toString 8 :=
  ⟨(add_validation_and_id_freshness [] "  " .low "Work" 0 7 8).1 (by decide),
   (add_validation_and_id_freshness [] "x" .low "Work" 0 7 8).2.2
     (by decide)⟩

/-- C5 counterexample: toggling an id absent from the store does not fail
with a NotFoundError — `handleToggleTask` is total and returns the store
unchanged. -/
theorem toggle_absent_id_no_failure :
    handleToggleTask "42" [demoTask] = [demoTask] := rfl

/-- C5 amended: toggling the same id twice restores the store to its
original state (double application is the identity), and toggling an id
absent from the store is a silent no-op that leaves the store unchanged
rather than failing with a NotFoundError. -/
theorem toggle_twice_identity (id : String) (tasks : List Task) :
    handleToggleTask id (handleToggleTask id tasks) = tasks ∧
    ((∀ t ∈ tasks, t.id ≠ id) → handleToggleTask id tasks = tasks) := by
  constructor
  · induction tasks with
    | nil => rfl
    | cons t ts ih =>
      simp only [handleToggleTask, List.map_cons, List.map_map] at ih ⊢
      rw [List.cons.injEq]
      refine ⟨?_, ih⟩
      obtain ⟨tid, ttl, tc, tp, tcat, td, tca⟩ := t
      by_cases h : tid = id
      · subst h; simp
      · simp [h]
  · intro h
    induction tasks with
    | nil => rfl
    | cons t ts ih =>
      simp only [handleToggleTask, List.map_cons] at ih ⊢
      rw [List.cons.injEq]
      refine ⟨?_, ih fun x hx => h x (List.mem_cons_of_mem t hx)⟩
      have ht := h t (List.mem_cons_self t ts)
      simp [ht]

/-- C5 witness: the amended theorem applied to a concrete store and an
absent id. -/
theorem toggle_twice_identity_witness :
    handleToggleTask "42" (handleToggleTask "42" [demoTask]) = [demoTask] ∧
    handleToggleTask "42" [demoTask] = [demoTask] :=
  ⟨(toggle_twice_identity "42" [demoTask]).1,
   (toggle_twice_identity "42" [demoTask]).2 (by decide)⟩

/-- C9: toggling an id preserves the length and order of the collection
and, position by position, every field except `completed`; `completed` is
flipped exactly at positions whose task carries the toggled id, and a task
whose id differs is completely unchanged. -/
theorem toggle_frame (id : String) (tasks : List Task) :
    (handleToggleTask id tasks).length = tasks.length ∧
    (∀ (i : Nat) (h1 : i < tasks.length)
        (h2 : i < (handleToggleTask id tasks).length),
      ((handleToggleTask id tasks).get ⟨i, h2⟩).id =
        (tasks.get ⟨i, h1⟩).id ∧
      ((handleToggleTask id tasks).get ⟨i, h2⟩).title =
        (tasks.get ⟨i, h1⟩).title ∧
      ((handleToggleTask id tasks).get ⟨i, h2⟩).priority =
        (tasks.get ⟨i, h1⟩).priority ∧
      ((handleToggleTask id tasks).get ⟨i, h2⟩).category =
        (tasks.get ⟨i, h1⟩).category ∧
      ((handleToggleTask id tasks).get ⟨i, h2⟩).dueDate =
        (tasks.get ⟨i, h1⟩).dueDate ∧
      ((handleToggleTask id tasks).get ⟨i, h2⟩).createdAt =
        (tasks.get ⟨i, h1⟩).createdAt ∧
      ((handleToggleTask id tasks).get ⟨i, h2⟩).completed =
        (if (tasks.get ⟨i, h1⟩).id = id then !(tasks.get ⟨i, h1⟩).completed
         else (tasks.get ⟨i, h1⟩).completed) ∧
      ((tasks.get ⟨i, h1⟩).id ≠ id →
        (handleToggleTask id tasks).get ⟨i, h2⟩ = tasks.get ⟨i, h1⟩)) := by
  constructor
  · simp [handleToggleTask]
  · intro i h1 h2
    have hg : (handleToggleTask id tasks).get ⟨i, h2⟩ =
        (if (tasks.get ⟨i, h1⟩).id = id then
          { tasks.get ⟨i, h1⟩ with
              completed := !(tasks.get ⟨i, h1⟩).completed }
         else tasks.get ⟨i, h1⟩) := by
      simp [handleToggleTask, List.get_eq_getElem, List.getElem_map]
    rw [hg]
    by_cases h : (tasks.get ⟨i, h1⟩).id = id
    · rw [if_pos h]
      refine ⟨rfl, rfl, rfl, rfl, rfl, rfl, ?_, fun hc => absurd h hc⟩
      rw [if_pos h]
    · rw [if_neg h]
      refine ⟨rfl, rfl, rfl, rfl, rfl, rfl, ?_, fun _ => rfl⟩
      rw [if_neg h]

/-- C9 witness: the frame theorem applied at position 0 of a concrete
store. -/
theorem toggle_frame_witness :
    ((handleToggleTask "1" [demoTask]).get ⟨0, by decide⟩).title =
      (([demoTask] : List Task).get ⟨0, by decide⟩).title :=
  ((toggle_frame "1" [demoTask]).2 0 (by decide) (by decide)).2.1

/-- `StatsView` (Home.tsx lines 554-556): the overall completion rate, a
fraction kept in full precision (rounding happens only at display time). -/
def completionRate (tasks : List Task) : ℚ :=
  let totalTasks := tasks.length
  let completedTasks := (tasks.filter (·.completed)).length
  if totalTasks > 0 then (completedTasks : ℚ) / totalTasks * 100 else 0

/-- `StatsView` (Home.tsx lines 558-560): `startOfWeek` is a copy of the
current instant moved back by the weekday index in days via `setDate`,
which keeps the time-of-day (no truncation to the start of the day). -/
def startOfWeek (now : Timestamp) : Timestamp := now - getDay now * msPerDay

/-- `StatsView` (Home.tsx line 562): tasks created at or after
`startOfWeek`. -/
def weeklyTasks (tasks : List Task) (now : Timestamp) : List Task :=
  tasks.filter fun t => decide (startOfWeek now ≤ t.createdAt)

/-- `StatsView` (Home.tsx lines 563-564): weekly completion rate. -/
def weeklyRate (tasks : List Task) (now : Timestamp) : ℚ :=
  let wt := weeklyTasks tasks now
  let weeklyCompleted := (wt.filter (·.completed)).length
  if wt.length > 0 then (weeklyCompleted : ℚ) / wt.length * 100 else 0

/-- Following the claim text of C4 (refinement comparison): the week start
as the claim states it, truncated to start-of-day. -/
def claimWeekStart (now : Timestamp) : Timestamp :=
  startOfDay (now - getDay now * msPerDay)

/-- Following the claim text of C4 (refinement comparison): the weekly
rate over tasks whose `createdAt` falls on or after the truncated week
start. -/
def claimWeeklyRate (tasks : List Task) (now : Timestamp) : ℚ :=
  let wt := tasks.filter fun t => decide (claimWeekStart now ≤ t.createdAt)
  if wt.length > 0 then
    ((wt.filter (·.completed)).length : ℚ) / wt.length * 100
  else 0

/-- A completed task created one second into epoch day 10 (a Sunday). -/
def sundayTask : Task :=
  { id := "s", title := "s", completed := true, priority := .low,
    category := "Work", dueDate := 0, createdAt := 10 * 86400000 + 1000 }

/-- Four concrete tasks of which exactly one is completed. -/
def fourTasks : List Task :=
  [demoTask, sundayTask, { demoTask with id := "4" },
   { demoTask with id := "5" }]

/-- C4 counterexample: with the clock at 1:00 on epoch day 10 (a Sunday,
weekday index 0), the code computes the week start as the current instant
itself, with its time-of-day, so a task created at 0:00:01 the same day is
excluded and the weekly rate is 0; the truncated week start the claim
prescribes includes that task, giving 100. -/
theorem weekly_rate_counterexample :
    weeklyRate [sundayTask] (10 * 86400000 + 3600000) = 0 ∧
    claimWeeklyRate [sundayTask] (10 * 86400000 + 3600000) = 100 := by
  have hwt : weeklyTasks [sundayTask] (10 * 86400000 + 3600000) = [] := by
    decide
  have hct : List.filter
      (fun t => decide (claimWeekStart (10 * 86400000 + 3600000) ≤
        t.createdAt)) [sundayTask] = [sundayTask] := by decide
  have hcc : List.filter (fun t : Task => t.completed) [sundayTask] =
      [sundayTask] := by decide
  constructor
  · simp [weeklyRate, hwt]
  · simp only [claimWeeklyRate, hct, hcc]
    norm_num

/-- C4 amended: the overall completion rate is completed divided by total
times 100, with value 0 for an empty collection (hence 25 for four tasks
with one completed), and the weekly rate is computed the same way over
exactly the tasks whose `createdAt` is at or after the week start, where
the week start is the current instant minus the weekday-index (Sunday = 0)
in days, keeping the current time-of-day, with value 0 when no such tasks
exist. -/
theorem stats_rates (tasks : List Task) (t : Task) (now : Timestamp) :
    (tasks.length = 0 → completionRate tasks = 0) ∧
    (tasks.length ≠ 0 →
      completionRate tasks =
        ((tasks.filter (·.completed)).length : ℚ) / tasks.length * 100) ∧
    completionRate fourTasks = 25 ∧
    (t ∈ weeklyTasks tasks now ↔
      t ∈ tasks ∧ now - getDay now * msPerDay ≤ t.createdAt) ∧
    ((weeklyTasks tasks now).length = 0 → weeklyRate tasks now = 0) ∧
    ((weeklyTasks tasks now).length ≠ 0 →
      weeklyRate tasks now =
        (((weeklyTasks tasks now).filter (·.completed)).length : ℚ) /
          (weeklyTasks tasks now).length * 100) := by
  refine ⟨fun h => ?_, fun h => ?_, ?_, ?_, fun h => ?_, fun h => ?_⟩
  · simp [completionRate, h]
  · simp [completionRate, Nat.pos_of_ne_zero h]
  · have h1 : (fourTasks.filter (·.completed)).length = 1 := by decide
    have h2 : fourTasks.length = 4 := by decide
    simp only [completionRate, h1, h2]
    norm_num
  · simp [weeklyTasks, startOfWeek, List.mem_filter]
  · simp [weeklyRate, h]
  · simp only [weeklyRate]
    rw [if_pos (Nat.pos_of_ne_zero h)]

/-- C4 witness: the amended theorem applied to the empty collection and to
the four-task example. -/
theorem stats_rates_witness :
    completionRate [] = 0 ∧ completionRate fourTasks = 25 :=
  ⟨(stats_rates [] demoTask 0).1 rfl,
   (stats_rates [] demoTask 0).2.2.1⟩

/-- The three bootstrap sample tasks (Home.tsx lines 656-684); their
`dueDate` and `createdAt` are the current time. -/
def sampleTasks (now : Timestamp) : List Task :=
  [{ id := "1", title := "Review Q1 project proposals", completed := false,
     priority := .high, category := "Work", dueDate := now,
     createdAt := now },
   { id := "2", title := "Buy groceries for the week", completed := false,
     priority := .medium, category := "Shopping", dueDate := now,
     createdAt := now },
   { id := "3", title := "Call mom to check in", completed := true,
     priority := .low, category := "Personal", dueDate := now,
     createdAt := now }]

/-- The load effect (Home.tsx lines 645-687): use the saved collection
when one is present, otherwise seed with the sample tasks.  The
persistence collaborator is modelled as holding the task collection
itself; the ISO round-trip through the store is the identity on this
model. -/
def loadTasks (saved : Option (List Task)) (now : Timestamp) : List Task :=
  match saved with
  | some parsed => parsed
  | none => sampleTasks now

/-- The persist effect (Home.tsx lines 690-694): whenever the collection
changes and is non-empty, write it wholesale to the store; when it is
empty, do nothing.  The boolean records whether a write occurred. -/
def persistEffect (tasks : List Task) (store : Option (List Task)) :
    Option (List Task) × Bool :=
  if tasks.length > 0 then (some tasks, true) else (store, false)

/-- The mount sequence: the load effect computes the collection from the
saved value, then the persist effect runs on the freshly set collection.
Returns the in-memory collection, the store contents and whether a write
occurred before any mutation. -/
def startup (saved : Option (List Task)) (now : Timestamp) :
    List Task × Option (List Task) × Bool :=
  let tasks := loadTasks saved now
  (tasks, persistEffect tasks saved)

/-- C8 counterexample: loading a non-empty persisted collection does by
itself trigger a persist — the persist effect fires on the freshly loaded
non-empty collection, so a write occurs before any mutation, contradicting
the claimed exception. -/
theorem load_nonempty_triggers_persist :
    (startup (some [demoTask]) 0).2.2 = true := rfl

/-- C8 amended: the full collection is persisted after every change that
leaves it non-empty; a change resulting in an empty collection is not
persisted; and the very first load of a non-empty persisted collection
itself triggers a persist of the loaded collection before any mutation. -/
theorem persist_on_every_nonempty_change (tasks saved : List Task)
    (store : Option (List Task)) (now : Timestamp) :
    (tasks ≠ [] → persistEffect tasks store = (some tasks, true)) ∧
    persistEffect [] store = (store, false) ∧
    (saved ≠ [] → startup (some saved) now = (saved, some saved, true)) := by
  refine ⟨fun h => ?_, rfl, fun h => ?_⟩
  · simp [persistEffect, List.length_pos.mpr h]
  · simp [startup, loadTasks, persistEffect, List.length_pos.mpr h]

/-- C8 witness: the amended theorem applied to a concrete non-empty
collection and saved store. -/
theorem persist_on_every_nonempty_change_witness :
    persistEffect [demoTask] none = (some [demoTask], true) ∧
    startup (some [demoTask]) 0 = ([demoTask], some [demoTask], true) :=
  ⟨(persist_on_every_nonempty_change [demoTask] [] none 0).1 (by decide),
   (persist_on_every_nonempty_change [] [demoTask] none 0).2.2 (by decide)⟩

/-- C10: an empty in-memory collection is never persisted: the persist
effect leaves the store untouched and performs no write; in particular
deleting the last remaining task removes every task with that id from the
collection but never writes the resulting empty collection, so the
previously persisted store contents survive. -/
theorem empty_collection_never_persisted (id : String) (tasks : List Task)
    (store : Option (List Task)) :
    persistEffect [] store = (store, false) ∧
    (∀ t ∈ handleDeleteTask id tasks, t.id ≠ id) ∧
    (handleDeleteTask id tasks = [] →
      persistEffect (handleDeleteTask id tasks) store = (store, false)) := by
  refine ⟨rfl, ?_, fun h => ?_⟩
  · intro t ht
    simp [handleDeleteTask, List.mem_filter] at ht
    exact ht.2
  · rw [h]; rfl

/-- C10 witness: deleting the only task of a concrete store leaves the
previously persisted value in place and performs no write. -/
theorem empty_collection_never_persisted_witness :
    persistEffect (handleDeleteTask "1" [demoTask]) (some [demoTask]) =
      (some [demoTask], false) :=
  (empty_collection_never_persisted "1" [demoTask] (some [demoTask])).2.2
    (by decide)

/-- The role of a chat message, from the user / assistant union type. -/
inductive Role
  | user
  | assistant
deriving DecidableEq, Repr

/-- The `ChatMessage` interface (Home.tsx lines 52-60). -/
structure ChatMessage where
  id : String
  type : Role
  content : String
  tips : Option (List String)
  prioritySuggestions : Option (List String)
  relatedTopics : Option (List String)
  timestamp : Timestamp
deriving DecidableEq, Repr

/-- The `TaskAssistantResult` interface (Home.tsx lines 35-40): the
normalized payload of a successful assistant reply. -/
structure TaskAssistantResult where
  answer : String
  tips : List String
  priority_suggestions : List String
  related_topics : List String
deriving DecidableEq, Repr

/-- The `response` part of the collaborator envelope: a status, an
optional result payload and an optional message. -/
structure AgentResponse where
  status : String
  result : Option TaskAssistantResult
  message : Option String
deriving DecidableEq, Repr

/-- The envelope returned by `callAIAgent`: a success flag and the
response body. -/
structure NormalizedAgentResponse where
  success : Bool
  response : AgentResponse
deriving DecidableEq, Repr

/-- Resolution of the collaborator call: either the promise resolves with
an envelope, or the call fails in transport and control reaches the
`catch` branch. -/
inductive AgentOutcome
  | ok (result : NormalizedAgentResponse)
  | failure
deriving DecidableEq, Repr

/-- `AIChat.handleSendMessage` (Home.tsx lines 276-325).  `now` is the
clock at send time and `now2` the clock when the collaborator call
resolves; message ids are the decimal clock readings, the assistant id
offset by one.  A success-status envelope whose `result` payload is
missing throws on the `data.answer` field access and control passes to
the catch branch, exactly as in the source; the soft-error content uses
the collaborator message unless it is absent or empty (the JS `||` on a
falsy string), in which case the fixed fallback is used. -/
def handleSendMessage (messages : List ChatMessage) (text : String)
    (now now2 : Timestamp) (outcome : AgentOutcome) : List ChatMessage :=
  let userMessage : ChatMessage :=
    { id := toString now, type := .user, content := text, tips := none,
      prioritySuggestions := none, relatedTopics := none, timestamp := now }
  let afterUser := messages ++ [userMessage]
  let networkError : ChatMessage :=
    { id := toString (now2 + 1), type := .assistant,
      content := "Network error. Please check your connection and try again.",
      tips := none, prioritySuggestions := none, relatedTopics := none,
      timestamp := now2 }
  match outcome with
  | .failure => afterUser ++ [networkError]
  | .ok result =>
    if result.success && result.response.status == "success" then
      match result.response.result with
      | some data =>
        afterUser ++
          [{ id := toString (now2 + 1), type := .assistant,
             content := data.answer, tips := some data.tips,
             prioritySuggestions := some data.priority_suggestions,
             relatedTopics := some data.related_topics, timestamp := now2 }]
      | none => afterUser ++ [networkError]
    else
      afterUser ++
        [{ id := toString (now2 + 1), type := .assistant,
           content :=
             match result.response.message with
             | some m =>
               if m = "" then
                 "Sorry, I encountered an error. Please try again."
               else m
             | none => "Sorry, I encountered an error. Please try again.",
           tips := none, prioritySuggestions := none, relatedTopics := none,
           timestamp := now2 }]

/-- The outcome of `AIChat.handleSubmit`: the resulting turn log and
whether a request was issued to the collaborator. -/
structure SubmitResult where
  messages : List ChatMessage
  requestIssued : Bool
deriving DecidableEq, Repr

/-- `AIChat.handleSubmit` (Home.tsx lines 327-331): the submission is
ignored when the input is blank after trimming or a request is already in
flight (`loading`); otherwise the message is sent. -/
def handleSubmit (input : String) (loading : Bool)
    (messages : List ChatMessage) (now now2 : Timestamp)
    (outcome : AgentOutcome) : SubmitResult :=
  if trimData input = [] ∨ loading = true then
    { messages := messages, requestIssued := false }
  else
    { messages := handleSendMessage messages input now now2 outcome,
      requestIssued := true }

/-- C6: while a request is awaiting its response (`loading` is true), a
new send-intent is ignored: the turn log is returned unchanged — its
length in particular — and no request is issued to the collaborator. -/
theorem send_while_loading_ignored (input : String)
    (messages : List ChatMessage) (now now2 : Timestamp)
    (outcome : AgentOutcome) :
    handleSubmit input true messages now now2 outcome =
      { messages := messages, requestIssued := false } ∧
    (handleSubmit input true messages now now2 outcome).messages.length =
      messages.length := by
  constructor <;> simp [handleSubmit]

/-- C3: every accepted send appends the user turn and then, in each of the
resolution branches, exactly one assistant turn: on transport failure it
carries the fixed network-error fallback; on a success-status envelope
with a result payload it carries the normalized answer, tips, priority
suggestions and related topics; on a non-success envelope it carries the
collaborator message (or the fixed soft-error fallback when none is
supplied) and no tips, suggestions or topics. -/
theorem send_appends_exactly_one_assistant_turn
    (messages : List ChatMessage) (text : String) (now now2 : Timestamp)
    (outcome : AgentOutcome) :
    ∃ a : ChatMessage,
      handleSendMessage messages text now now2 outcome =
        messages ++
          [{ id := toString now, type := .user, content := text,
             tips := none, prioritySuggestions := none,
             relatedTopics := none, timestamp := now }, a] ∧
      a.type = .assistant ∧
      (outcome = .failure →
        a.content =
          "Network error. Please check your connection and try again.") ∧
      (∀ r d, outcome = .ok r → r.success = true →
        r.response.status = "success" → r.response.result = some d →
        a.content = d.answer ∧ a.tips = some d.tips ∧
        a.prioritySuggestions = some d.priority_suggestions ∧
        a.relatedTopics = some d.related_topics) ∧
      (∀ r, outcome = .ok r →
        ¬(r.success = true ∧ r.response.status = "success") →
        a.tips = none ∧ a.prioritySuggestions = none ∧
        a.relatedTopics = none ∧
        (r.response.message = none →
          a.content = "Sorry, I encountered an error. Please try again.") ∧
        (∀ m, r.response.message = some m → m ≠ "" → a.content = m)) := by
  cases outcome with
  | failure =>
    refine ⟨{ id := toString (now2 + 1), type := .assistant,
              content :=
                "Network error. Please check your connection and try again.",
              tips := none, prioritySuggestions := none,
              relatedTopics := none, timestamp := now2 },
            ?_, rfl, fun _ => rfl, ?_, ?_⟩
    · simp [handleSendMessage]
    · intro r d h; cases h
    · intro r h; cases h
  | ok r =>
    by_cases hs : (r.success && (r.response.status == "success")) = true
    · have hcj : r.success = true ∧ r.response.status = "success" := by
        simpa [Bool.and_eq_true, beq_iff_eq] using hs
      cases hres : r.response.result with
      | some d =>
        refine ⟨{ id := toString (now2 + 1), type := .assistant,
                  content := d.answer, tips := some d.tips,
                  prioritySuggestions := some d.priority_suggestions,
                  relatedTopics := some d.related_topics,
                  timestamp := now2 },
                ?_, rfl, ?_, ?_, ?_⟩
        · simp [handleSendMessage, hs, hres]
        · intro h; cases h
        · intro r2 d2 hr hsucc hstat hres2
          cases hr
          rw [hres] at hres2
          injection hres2 with h
          subst h
          exact ⟨rfl, rfl, rfl, rfl⟩
        · intro r2 hr hneg
          cases hr
          exact absurd hcj hneg
      | none =>
        refine ⟨{ id := toString (now2 + 1), type := .assistant,
                  content :=
                    "Network error. Please check your connection and try again.",
                  tips := none, prioritySuggestions := none,
                  relatedTopics := none, timestamp := now2 },
                ?_, rfl, ?_, ?_, ?_⟩
        · simp [handleSendMessage, hs, hres]
        · intro h; cases h
        · intro r2 d2 hr hsucc hstat hres2
          cases hr
          rw [hres] at hres2
          cases hres2
        · intro r2 hr hneg
          cases hr
          exact absurd hcj hneg
    · refine ⟨{ id := toString (now2 + 1), type := .assistant,
                content :=
                  match r.response.message with
                  | some m =>
                    if m = "" then
                      "Sorry, I encountered an error. Please try again."
                    else m
                  | none =>
                    "Sorry, I encountered an error. Please try again.",
                tips := none, prioritySuggestions := none,
                relatedTopics := none, timestamp := now2 },
              ?_, rfl, ?_, ?_, ?_⟩
      · simp [handleSendMessage, hs]
      · intro h; cases h
      · intro r2 d2 hr hsucc hstat hres2
        cases hr
        exact absurd (by simp [hsucc, hstat]) hs
      · intro r2 hr hneg
        cases hr
        refine ⟨rfl, rfl, rfl, fun hm => ?_, fun m hm hne => ?_⟩
        · show (match r.response.message with
            | some m =>
              if m = "" then
                "Sorry, I encountered an error. Please try again."
              else m
            | none => "Sorry, I encountered an error. Please try again.") =
            "Sorry, I encountered an error. Please try again."
          rw [hm]
        · show (match r.response.message with
            | some m =>
              if m = "" then
                "Sorry, I encountered an error. Please try again."
              else m
            | none => "Sorry, I encountered an error. Please try again.") = m
          rw [hm]
          simp [hne]

/-- The example result payload of the end-to-end scenario in the
specification. -/
def demoResult : TaskAssistantResult :=
  { answer := "Focus on high priority", tips := ["Do urgent first"],
    priority_suggestions := ["Review Q1"],
    related_topics := ["time-management"] }

/-- The example success envelope of the end-to-end scenario in the
specification. -/
def demoEnvelope : NormalizedAgentResponse :=
  { success := true,
    response := { status := "success", result := some demoResult,
                  message := none } }

/-- C3 witness: the end-to-end scenario — sending a prompt that resolves
with the example success envelope yields a log of exactly two turns whose
contents are the prompt and the normalized answer. -/
theorem send_appends_exactly_one_assistant_turn_witness :
    (handleSendMessage [] "Prioritize my tasks" 0 0 (.ok demoEnvelope)).map
        ChatMessage.content =
      ["Prioritize my tasks", "Focus on high priority"] ∧
    (handleSendMessage [] "Prioritize my tasks" 0 0
        (.ok demoEnvelope)).length = 2 := by
  obtain ⟨a, heq, -, -, hsucc, -⟩ :=
    send_appends_exactly_one_assistant_turn [] "Prioritize my tasks" 0 0
      (.ok demoEnvelope)
  have h := hsucc demoEnvelope demoResult rfl rfl rfl rfl
  rw [heq]
  simp [h.1, demoResult]

/-- C7: with an active category filter the Today and Upcoming views are
exactly the date-filtered sets intersected with the tasks of that
category (the filter applies identically to both); the Lists and Stats
views always receive the whole collection regardless of the filter; and
clicking the active category a second time clears the filter. -/
theorem category_filter_views (tasks : List Task) (c : String)
    (now : Timestamp) :
    getFilteredTasks tasks .today (some c) now =
      (getFilteredTasks tasks .today none now).filter
        (fun t => t.category == c) ∧
    getFilteredTasks tasks .upcoming (some c) now =
      (getFilteredTasks tasks .upcoming none now).filter
        (fun t => t.category == c) ∧
    displayedTasks tasks .lists (some c) now = tasks ∧
    displayedTasks tasks .stats (some c) now = tasks ∧
    handleCategoryClick (some c) c = none := by
  refine ⟨rfl, rfl, rfl, rfl, ?_⟩
  simp [handleCategoryClick]

end TaskFlow
